import Mathlib

/-!
Verification of the mercadobitcoin extraction pipeline (src/extraction.py).

The pipeline is four functions executed in sequence:
  get_api_trades  : one HTTP GET, decode JSON, wrap request failures;
  generate_dataframe : list-of-dicts -> pandas DataFrame;
  dataframe_to_csv : DataFrame -> CSV file in a directory, dated filename;
  upload_csv_to_s3 : local file -> S3 object key.

We give a shallow embedding: JSON values are an inductive type, the
DataFrame is columns plus rows of optional cells, the filesystem and the
HTTP/S3 endpoints are explicit state/oracle parameters, and every Python
`raise` becomes an `Except.error` carrying a constructor of the spec's
error taxonomy together with the exact message the code formats.
-/

namespace Extraction

/-- A scalar cell value, per the spec's data model (string or number).
JSON trade records map field names to such scalars. -/
inductive Scalar where
  | s (v : String)
  | i (v : Int)
deriving DecidableEq, Repr

/-- A decoded JSON value, the universe of `response.json()` outputs fed to
the Table Builder: an array, an object (field name to scalar, per the
spec's Trade Record model), a string, or a number.  `vlist` is a Python
`list`, `vdict` a Python `dict`. -/
inductive PyVal where
  | vlist (xs : List PyVal)
  | vdict (kvs : List (String × Scalar))
  | vstr (v : String)
  | vint (v : Int)

/-- The error taxonomy of the spec (section 7).  The Python code raises
`ValueError` everywhere; the constructors keep the distinct raise sites
apart, carrying the exact formatted message.  `raw` is an exception that
escapes a function without being caught and wrapped by it. -/
inductive PipelineError where
  | dataSourceError (msg : String)
  | inputShapeError (msg : String)
  | notADataFrame (msg : String)
  | destinationError (msg : String)
  | uploadError (msg : String)
  | raw (msg : String)
deriving DecidableEq, Repr

/-- The Trade Table: `pd.DataFrame` as columns in order plus rows of
cells; a `none` cell is a missing key (pandas NaN). -/
structure DataFrame where
  columns : List String
  rows : List (List (Option Scalar))
deriving DecidableEq, Repr

/-- Fold new keys into an accumulated column list, keeping first-seen
order and dropping keys already present (pandas column construction from
a sequence of dict key sets). -/
def addKeys (acc : List String) (ks : List String) : List String :=
  ks.foldl (fun a k => if k ∈ a then a else a ++ [k]) acc

/-- Column list of `pd.DataFrame(records)`: union of keys across the
records in first-seen order. -/
def firstSeenKeys (records : List (List (String × Scalar))) : List String :=
  records.foldl (fun acc r => addKeys acc (r.map Prod.fst)) []

/-- Keep the first occurrence of every element of a list, in order of
first appearance (reference formulation of the spec's first-seen key
order). -/
def dedupKeepFirst (ks : List String) : List String :=
  addKeys [] ks

/-- Value of key `k` in record `r` (Python dict lookup; records model
dicts, so keys are distinct). -/
def lookupKey (r : List (String × Scalar)) (k : String) : Option Scalar :=
  match r with
  | [] => none
  | (k2, v) :: rest => if k2 = k then some v else lookupKey rest k

/-- `pd.DataFrame(records)`: columns are the first-seen union of keys,
row `i` is record `i` aligned to the columns, missing keys become NaN
(`none`). -/
def mkDF (records : List (List (String × Scalar))) : DataFrame :=
  let cols := firstSeenKeys records
  { columns := cols
    rows := records.map (fun r => cols.map (fun c => lookupKey r c)) }

/-- Is this Python value a `dict`?  (`isinstance(item, dict)`). -/
def isDict : PyVal → Bool
  | .vdict _ => true
  | _ => false

/-- The record of a `dict` value. -/
def asDict : PyVal → List (String × Scalar)
  | .vdict kvs => kvs
  | _ => []

/-- `generate_dataframe` (src/extraction.py:29-45): raises unless the
input is a list whose elements are all dicts, then builds the DataFrame. -/
def generate_dataframe (trades : PyVal) : Except PipelineError DataFrame :=
  match trades with
  | .vlist xs =>
      if xs.all isDict then
        .ok (mkDF (xs.map asDict))
      else
        .error (.inputShapeError "All elements of the 'trades' list must be dictionaries.")
  | _ => .error (.inputShapeError "The 'trades' parameter must be a list.")

/-- The structural validity condition the spec states for the Table
Builder: the input is a sequence all of whose elements are mappings. -/
def validShape : PyVal → Bool
  | .vlist xs => xs.all isDict
  | _ => false

/-! ## CSV rendering (`df.to_csv(file_path, index=False)`)

pandas writes a header row of the column names and one line per record,
separated by a line feed, with minimal quoting: a field containing the
delimiter, the quote character, a line feed or a carriage return is
wrapped in double quotes with inner quotes doubled.  NaN cells render as
the empty field.  Rendering works on `List Char`. -/

/-- The double-quote character (written by code point to keep source
lines free of nested quote literals). -/
def dquote : Char := Char.ofNat 34

/-- String of a scalar, as Python `str` renders it into the CSV. -/
def scalarStr : Scalar → String
  | .s v => v
  | .i v => toString v

/-- String of a cell: NaN (`none`) renders as the empty field. -/
def cellStr : Option Scalar → String
  | none => ""
  | some v => scalarStr v

/-- Does the field need quoting under minimal quoting? -/
def needsQuote (f : List Char) : Bool :=
  f.any (fun c => c = ',' || c = dquote || c = '\n' || c = '\r')

/-- Double every quote character of a field body. -/
def escQ : List Char → List Char
  | [] => []
  | c :: cs => if c = dquote then dquote :: dquote :: escQ cs else c :: escQ cs

/-- Render one field with minimal quoting. -/
def renderField (f : List Char) : List Char :=
  if needsQuote f then dquote :: (escQ f ++ [dquote]) else f

/-- Render one record: fields joined by commas. -/
def renderRow : List (List Char) → List Char
  | [] => []
  | [f] => renderField f
  | f :: fs => renderField f ++ ',' :: renderRow fs

/-- Render records, one per line, each line terminated by a line feed. -/
def renderCSV (rows : List (List (List Char))) : List Char :=
  rows.foldr (fun r acc => renderRow r ++ '\n' :: acc) []

/-- `df.to_csv(..., index=False)`: header row of column names, then one
line per record, no index column. -/
def to_csv (df : DataFrame) : String :=
  String.mk (renderCSV ((df.columns.map String.data) ::
    df.rows.map (fun r => r.map (fun cell => (cellStr cell).data))))

/-! ## Local filesystem and `dataframe_to_csv` -/

/-- Local-filesystem state: the set of paths that exist as directories,
a map from file path to content, and a fault injector that makes the
next write raise the given I/O error (disk full, permission denied, ...)
instead of succeeding. -/
structure FS where
  dirs : List String
  files : List (String × String)
  writeFail : Option String
deriving DecidableEq, Repr

/-- Content of the file at a path, if present. -/
def fileLookup (fs : FS) (p : String) : Option String :=
  (fs.files.find? (fun kv => kv.1 = p)).map Prod.snd

/-- Write (creating or fully overwriting) the file at a path. -/
def writeFile (fs : FS) (p content : String) : FS :=
  { fs with files := (p, content) :: fs.files.eraseP (fun kv => kv.1 = p) }

/-- Does the path end with the path separator? -/
def endsWithSep (p : String) : Bool :=
  match p.data.getLast? with
  | some c => c = '/'
  | none => false

/-- `os.path.join` of a directory and a relative filename. -/
def joinPath (dir child : String) : String :=
  if endsWithSep dir then dir ++ child else dir ++ "/" ++ child

/-- Is the path absolute (`os.path.isabs`)? -/
def isAbsolute (p : String) : Bool :=
  match p.data with
  | [] => false
  | c :: _ => c = '/'

/-- The first argument of `dataframe_to_csv`: either an actual DataFrame
or some other Python value (`isinstance(df, pd.DataFrame)` fails). -/
inductive DfArg where
  | df (d : DataFrame)
  | notDf
deriving DecidableEq, Repr

/-- `api_trades_<YYYY-MM-DD>.csv` for the given calendar date. -/
def csvFilename (today : String) : String :=
  "api_trades_" ++ today ++ ".csv"

/-- `dataframe_to_csv` (src/extraction.py:48-74).  `today` is the value
of `datetime.today().strftime("%Y-%m-%d")` at the call.  Returns the
outcome (file path or error), the filesystem after the call, and the
lines printed to standard output. -/
def dataframe_to_csv (arg : DfArg) (csv_path today : String) (fs : FS) :
    Except PipelineError String × FS × List String :=
  match arg with
  | .notDf =>
      (.error (.notADataFrame "The 'df' parameter must be a Pandas DataFrame."), fs, [])
  | .df d =>
      if csv_path ∈ fs.dirs then
        let file_path := joinPath csv_path (csvFilename today)
        match fs.writeFail with
        | some e =>
            (.error (.destinationError
              ("Error while saving the data on '" ++ file_path ++ "': " ++ e)), fs, [])
        | none =>
            (.ok file_path, writeFile fs file_path (to_csv d),
             ["DataFrame successfully saved to " ++ file_path])
      else
        (.error (.destinationError
          ("The path '" ++ csv_path ++ "' is not a valid directory.")), fs, [])

/-! ## Remote upload (`upload_csv_to_s3`) -/

/-- Split a character list on a separator character, Python `str.split`
style: `n` separators yield `n + 1` (possibly empty) pieces. -/
def splitOnChar (sep : Char) : List Char → List (List Char)
  | [] => [[]]
  | c :: cs =>
      if c = sep then [] :: splitOnChar sep cs
      else
        match splitOnChar sep cs with
        | [] => [[c]]
        | f :: rest => (c :: f) :: rest

/-- `file_path.split('\\')[-1]`: the last backslash-separated component
of the path (src/extraction.py:97). -/
def csvFileName (file_path : String) : String :=
  String.mk ((splitOnChar '\\' file_path.data).getLastD file_path.data)

/-- Modelled from the spec: the platform path-basename operation — the
final path component of a local file path — which section 4.4 says a
reimplementation should use for filename extraction.  Missing from src/:
the code hard-codes a backslash split instead of calling it. -/
def basename (file_path : String) : String :=
  String.mk ((splitOnChar '/' file_path.data).getLastD file_path.data)

/-- `upload_csv_to_s3` (src/extraction.py:77-104).  `clientErr` is the
exception, if any, raised by `boto3.client(...)` while establishing the
session; `uploadErr` the exception, if any, raised by
`s3_client.upload_file(...)`.  On success returns the bucket and object
key written, plus the printed confirmation lines. -/
def upload_csv_to_s3 (file_path bucket_name s3_folder : String)
    (clientErr uploadErr : Option String) :
    Except PipelineError (String × String) × List String :=
  match clientErr with
  | some e => (.error (.raw e), [])
  | none =>
      let csv_file_name := csvFileName file_path
      let obj := s3_folder ++ "/" ++ csv_file_name
      match uploadErr with
      | some e =>
          (.error (.uploadError ("An error occurred while uploading the file: " ++ e)), [])
      | none =>
          (.ok (bucket_name, obj),
           ["File '" ++ file_path ++ "' uploaded successfully to bucket " ++ bucket_name ++ "."])

/-- Does the outcome carry an `UploadError`? -/
def isUploadError : Except PipelineError (String × String) → Bool
  | .error (.uploadError _) => true
  | _ => false

/-! ## Trade fetch (`get_api_trades`) -/

/-- Outcome of one HTTP GET: a network failure (a
`requests.exceptions.RequestException` before any response), or a
response with a status code and a body that either decodes as JSON or
fails to decode (`response.json()` raises
`requests.exceptions.JSONDecodeError`, itself a `RequestException`). -/
inductive HttpResult where
  | netErr (e : String)
  | resp (status : Nat) (body : Except String PyVal)

/-- The URL the fetcher builds: `<base_url>/<symbol>/trades`. -/
def tradesUrl (api_url symbol : String) : String :=
  api_url ++ "/" ++ symbol ++ "/trades"

/-- `get_api_trades` (src/extraction.py:11-26).  `http` is the network
oracle mapping a URL to the outcome of a GET on it.  The try block wraps
`requests.get`, `raise_for_status` (which raises exactly on status
400-599) and `response.json()`; every `RequestException` is re-raised as
the spec's `DataSourceError` with the formatted message. -/
def get_api_trades (http : String → HttpResult) (api_url symbol : String) :
    Except PipelineError PyVal :=
  match http (tradesUrl api_url symbol) with
  | .netErr e => .error (.dataSourceError ("Error during API request: " ++ e))
  | .resp status body =>
      if 400 ≤ status ∧ status < 600 then
        .error (.dataSourceError ("Error during API request: " ++
          toString status ++ " Error for url"))
      else
        match body with
        | .ok j => .ok j
        | .error e => .error (.dataSourceError ("Error during API request: " ++ e))

/-- The failure condition claimed for the fetcher: the GET returned a
non-success (client- or server-error, 400-599) status or a network
failure occurred. -/
def claimedFetchFailure : HttpResult → Bool
  | .netErr _ => true
  | .resp status _ => decide (400 ≤ status ∧ status < 600)

/-- The fetcher's actual failure condition: non-success (400-599)
status, network failure, or a body that fails JSON deserialization. -/
def actualFetchFailure : HttpResult → Bool
  | .netErr _ => true
  | .resp status body => decide (400 ≤ status ∧ status < 600) || !(body.toOption.isSome)

/-! ## CSV reading

Modelled from the spec: section 8's round-trip property reads the CSV
file back ("writing a table to CSV then reading it back"), an operation
the repository itself never performs.  We model a standard reader of the
format section 6 describes (comma-delimited text, one record per line,
header row first): fields are separated by commas, records by line
feeds, and a field beginning with a double quote extends to the matching
closing quote with doubled quotes read as one quote character. -/

/-- Read an unquoted field: everything up to the next comma or line
feed.  Returns the field and the unconsumed rest. -/
def takeUnquoted : List Char → List Char × List Char
  | [] => ([], [])
  | c :: cs =>
      if c = ',' ∨ c = '\n' then ([], c :: cs)
      else (c :: (takeUnquoted cs).1, (takeUnquoted cs).2)

/-- Read the body of a quoted field, after its opening quote: a doubled
quote stands for one quote character, a single quote closes the field. -/
def parseQuoted : List Char → List Char × List Char
  | [] => ([], [])
  | [c] => if c = dquote then ([], []) else ([c], [])
  | c :: c2 :: cs =>
      if c = dquote then
        if c2 = dquote then (dquote :: (parseQuoted cs).1, (parseQuoted cs).2)
        else ([], c2 :: cs)
      else (c :: (parseQuoted (c2 :: cs)).1, (parseQuoted (c2 :: cs)).2)

/-- Read one field, quoted or not. -/
def parseField (l : List Char) : List Char × List Char :=
  match l with
  | [] => ([], [])
  | c :: cs => if c = dquote then parseQuoted cs else takeUnquoted l

theorem takeUnquoted_rest_le (l : List Char) : (takeUnquoted l).2.length ≤ l.length := by
  induction l with
  | nil => simp [takeUnquoted]
  | cons c cs ih =>
      simp only [takeUnquoted]
      split
      · simp
      · simpa using Nat.le_succ_of_le ih

theorem parseQuoted_rest_le : (l : List Char) → (parseQuoted l).2.length ≤ l.length
  | [] => by simp [parseQuoted]
  | [c] => by by_cases h : c = dquote <;> simp [parseQuoted, h]
  | c :: c2 :: cs => by
      by_cases h : c = dquote
      · by_cases hq : c2 = dquote
        · have h1 := parseQuoted_rest_le cs
          simp [parseQuoted, h, hq]
          omega
        · simp [parseQuoted, h, hq]
      · have h2 := parseQuoted_rest_le (c2 :: cs)
        simp only [List.length_cons] at h2
        simp [parseQuoted, h]
        omega

theorem parseField_rest_le (l : List Char) : (parseField l).2.length ≤ l.length := by
  match l with
  | [] => simp [parseField]
  | c :: cs =>
      simp only [parseField]
      split
      · exact Nat.le_succ_of_le (parseQuoted_rest_le cs)
      · exact takeUnquoted_rest_le (c :: cs)

set_option linter.unusedVariables false in
/-- Read one record: fields separated by commas, terminated by a line
feed or the end of input.  Returns the fields and the rest after the
record's terminator.  (The match hypothesis is consumed by the
termination proof.) -/
def parseRecord (l : List Char) : List (List Char) × List Char :=
  match hfr : (parseField l).2 with
  | [] => ([(parseField l).1], [])
  | c :: r2 =>
      if c = ',' then ((parseField l).1 :: (parseRecord r2).1, (parseRecord r2).2)
      else ([(parseField l).1], r2)
termination_by l.length
decreasing_by
  have := parseField_rest_le l
  rw [hfr] at this
  simp at this
  omega

theorem parseRecord_rest_le_aux : ∀ (n : Nat) (l : List Char), l.length ≤ n →
    (parseRecord l).2.length ≤ l.length := by
  intro n
  induction n with
  | zero =>
      intro l hl
      have : l = [] := List.length_eq_zero.mp (Nat.le_zero.mp hl)
      subst this
      rw [parseRecord.eq_def]
      split <;> simp_all [parseField]
  | succ n ih =>
      intro l hl
      rw [parseRecord.eq_def]
      split
      · simp
      · rename_i c r2 hfr
        have hle := parseField_rest_le l
        rw [hfr] at hle
        simp only [List.length_cons] at hle
        split
        · have := ih r2 (by omega)
          simp only
          omega
        · simp only
          omega

theorem parseRecord_rest_le (l : List Char) : (parseRecord l).2.length ≤ l.length :=
  parseRecord_rest_le_aux l.length l le_rfl

theorem parseRecord_rest_lt (l : List Char) (hne : l ≠ []) :
    (parseRecord l).2.length < l.length := by
  have hpos : 0 < l.length := List.length_pos.mpr hne
  rw [parseRecord.eq_def]
  split
  · simpa using hpos
  · rename_i c r2 hfr
    have hle := parseField_rest_le l
    rw [hfr] at hle
    simp at hle
    split
    · have := parseRecord_rest_le r2
      simp
      omega
    · simp
      omega

/-- Read a whole CSV document: records until the input is exhausted. -/
def parseCSV (l : List Char) : List (List (List Char)) :=
  match l with
  | [] => []
  | c :: cs => (parseRecord (c :: cs)).1 :: parseCSV (parseRecord (c :: cs)).2
termination_by l.length
decreasing_by
  exact parseRecord_rest_lt (c :: cs) (by simp)

/-- Read a CSV document back into a header row and data rows, as
strings (pandas `read_csv`: first record is the header, the rest are
the data rows; every cell comes back as text). -/
def read_csv (content : String) : Option (List String × List (List String)) :=
  match parseCSV content.data with
  | [] => none
  | hdr :: rows => some (hdr.map String.mk, rows.map (fun r => r.map String.mk))

/-- Cell `j` of row `i` of a list of rows, if both indices are in
range. -/
def cellAt (rows : List (List α)) (i j : Nat) : Option α :=
  rows[i]?.bind (fun r => r[j]?)

/-! ## Lemmas about column construction -/

theorem mem_addKeys (acc ks : List String) (k : String) :
    k ∈ addKeys acc ks ↔ k ∈ acc ∨ k ∈ ks := by
  induction ks generalizing acc with
  | nil => simp [addKeys]
  | cons x ks ih =>
      show k ∈ addKeys (if x ∈ acc then acc else acc ++ [x]) ks ↔ _
      rw [ih]
      by_cases hx : x ∈ acc
      · simp only [if_pos hx, List.mem_cons]
        constructor
        · rintro (h | h)
          · exact Or.inl h
          · exact Or.inr (Or.inr h)
        · rintro (h | h | h)
          · exact Or.inl h
          · exact Or.inl (h ▸ hx)
          · exact Or.inr h
      · simp only [if_neg hx, List.mem_append, List.mem_singleton, List.mem_cons]
        tauto

theorem nodup_addKeys (acc ks : List String) (h : acc.Nodup) :
    (addKeys acc ks).Nodup := by
  induction ks generalizing acc with
  | nil => exact h
  | cons x ks ih =>
      show (addKeys (if x ∈ acc then acc else acc ++ [x]) ks).Nodup
      by_cases hx : x ∈ acc
      · rw [if_pos hx]; exact ih acc h
      · rw [if_neg hx]
        exact ih _ (by simp [List.nodup_append, h, hx])

theorem addKeys_append (acc xs ys : List String) :
    addKeys acc (xs ++ ys) = addKeys (addKeys acc xs) ys :=
  List.foldl_append _ _ _ _

theorem firstSeenKeys_eq_dedup (records : List (List (String × Scalar))) :
    firstSeenKeys records = dedupKeepFirst ((records.map (fun r => r.map Prod.fst)).flatten) := by
  suffices h : ∀ acc, records.foldl (fun a r => addKeys a (r.map Prod.fst)) acc =
      addKeys acc ((records.map (fun r => r.map Prod.fst)).flatten) by
    exact h []
  induction records with
  | nil => intro acc; simp [addKeys]
  | cons r rs ih =>
      intro acc
      simp only [List.foldl_cons, List.map_cons, List.flatten_cons, addKeys_append]
      exact ih _

theorem mem_firstSeenKeys (records : List (List (String × Scalar))) (k : String) :
    k ∈ firstSeenKeys records ↔ ∃ r ∈ records, k ∈ r.map Prod.fst := by
  rw [firstSeenKeys_eq_dedup, dedupKeepFirst, mem_addKeys]
  simp [List.mem_flatten]

theorem nodup_firstSeenKeys (records : List (List (String × Scalar))) :
    (firstSeenKeys records).Nodup := by
  rw [firstSeenKeys_eq_dedup, dedupKeepFirst]
  exact nodup_addKeys [] _ List.nodup_nil

theorem lookupKey_not_mem (r : List (String × Scalar)) (k : String)
    (h : k ∉ r.map Prod.fst) : lookupKey r k = none := by
  induction r with
  | nil => rfl
  | cons kv rest ih =>
      simp only [List.map_cons, List.mem_cons] at h
      push_neg at h
      show lookupKey (kv :: rest) k = none
      rw [lookupKey]
      rw [if_neg (fun he => h.1 he.symm)]
      exact ih h.2

theorem lookupKey_mem (r : List (String × Scalar)) (k : String) (v : Scalar)
    (hnd : (r.map Prod.fst).Nodup) (h : (k, v) ∈ r) : lookupKey r k = some v := by
  induction r with
  | nil => cases h
  | cons kv rest ih =>
      simp only [List.map_cons, List.nodup_cons] at hnd
      rcases List.mem_cons.mp h with he | hrest
      · subst he
        show lookupKey ((k, v) :: rest) k = some v
        rw [lookupKey, if_pos rfl]
      · show lookupKey (kv :: rest) k = some v
        rw [lookupKey]
        have hk : kv.1 ≠ k := by
          intro he
          exact hnd.1 (he ▸ List.mem_map_of_mem Prod.fst hrest)
        rw [if_neg hk]
        exact ih hnd.2 hrest

/-! ## Printer/parser inversion for the CSV format -/

/-- Can this rest-of-input legally follow a rendered field?  (Empty, or
starting at a field or record separator.) -/
def sepStart : List Char → Bool
  | [] => true
  | c :: _ => c = ',' || c = '\n'

theorem takeUnquoted_render (f r : List Char) (hq : needsQuote f = false)
    (hr : sepStart r = true) : takeUnquoted (f ++ r) = (f, r) := by
  induction f with
  | nil =>
      simp only [List.nil_append]
      cases r with
      | nil => rfl
      | cons c r2 =>
          rw [sepStart] at hr
          rw [takeUnquoted, if_pos (by simpa using hr)]
  | cons c f' ih =>
      rw [needsQuote, List.any_cons, Bool.or_eq_false_iff] at hq
      obtain ⟨hc, hf'⟩ := hq
      simp only [Bool.or_eq_false_iff, decide_eq_false_iff_not] at hc
      rw [List.cons_append, takeUnquoted,
        if_neg (by rintro (h | h) <;> simp [h] at hc),
        ih (by rw [needsQuote]; exact hf')]

theorem parseQuoted_render (f r : List Char) (hr : r.head? ≠ some dquote) :
    parseQuoted (escQ f ++ dquote :: r) = (f, r) := by
  induction f with
  | nil =>
      rw [escQ, List.nil_append]
      cases r with
      | nil => rw [parseQuoted, if_pos rfl]
      | cons c2 r2 =>
          have hc2 : ¬ c2 = dquote := by
            simp only [List.head?] at hr
            intro he
            exact hr (by rw [he])
          rw [parseQuoted, if_pos rfl, if_neg hc2]
  | cons c f' ih =>
      by_cases hc : c = dquote
      · subst hc
        rw [escQ, if_pos rfl]
        have hlist : dquote :: dquote :: escQ f' ++ dquote :: r =
            dquote :: dquote :: (escQ f' ++ dquote :: r) := by simp
        rw [List.cons_append, List.cons_append, parseQuoted, if_pos rfl, if_pos rfl, ih]
      · rw [escQ, if_neg hc]
        have hne : escQ f' ++ dquote :: r ≠ [] := by
          intro he
          exact absurd (List.append_eq_nil.mp he).2 (by simp)
        cases htail : escQ f' ++ dquote :: r with
        | nil => exact absurd htail hne
        | cons c2 cs2 =>
            rw [List.cons_append, htail, parseQuoted, if_neg hc, ← htail, ih]

theorem parseField_render (f r : List Char) (hr : sepStart r = true) :
    parseField (renderField f ++ r) = (f, r) := by
  have hrq : r.head? ≠ some dquote := by
    cases r with
    | nil => exact fun h => Option.noConfusion h
    | cons c r2 =>
        intro he
        have hc : c = dquote := Option.some.inj he
        rw [sepStart, hc] at hr
        revert hr
        decide
  by_cases hq : needsQuote f = true
  · rw [renderField, if_pos hq]
    have : (dquote :: (escQ f ++ [dquote])) ++ r = dquote :: (escQ f ++ dquote :: r) := by
      simp
    rw [this, parseField, if_pos rfl]
    exact parseQuoted_render f r hrq
  · rw [Bool.not_eq_true] at hq
    rw [renderField, if_neg (by rw [hq]; simp)]
    cases f with
    | nil =>
        simp only [List.nil_append]
        cases r with
        | nil => rfl
        | cons c r2 =>
            have hc : ¬ c = dquote := by
              intro he
              exact hrq (by rw [List.head?, he])
            rw [parseField, if_neg hc]
            exact takeUnquoted_render [] (c :: r2) rfl hr
    | cons c f' =>
        have hcq : ¬ c = dquote := by
          intro he
          rw [needsQuote, List.any_cons] at hq
          simp [he] at hq
        rw [List.cons_append, parseField, if_neg hcq, ← List.cons_append]
        exact takeUnquoted_render (c :: f') r hq hr

theorem parseRecord_render (cells : List (List Char)) (r : List Char) (hne : cells ≠ []) :
    parseRecord (renderRow cells ++ '\n' :: r) = (cells, r) := by
  induction cells generalizing r with
  | nil => exact absurd rfl hne
  | cons f fs ih =>
      cases fs with
      | nil =>
          have hpf := parseField_render f ('\n' :: r) (by rw [sepStart]; decide)
          rw [show renderRow [f] = renderField f from rfl]
          rw [parseRecord.eq_def]
          split
          · rename_i hfr
            rw [hpf] at hfr
            simp at hfr
          · rename_i c r2 hfr
            rw [hpf] at hfr
            simp only at hfr
            obtain ⟨hc, hr2⟩ := List.cons.injEq _ _ _ _ ▸ hfr
            subst hr2
            rw [if_neg (by rw [← hc]; decide), hpf]
      | cons f2 fs2 =>
          have hrr : renderRow (f :: f2 :: fs2) = renderField f ++ ',' :: renderRow (f2 :: fs2) :=
            rfl
          have hl : renderRow (f :: f2 :: fs2) ++ '\n' :: r =
              renderField f ++ ',' :: (renderRow (f2 :: fs2) ++ '\n' :: r) := by
            rw [hrr]
            simp
          have hpf := parseField_render f (',' :: (renderRow (f2 :: fs2) ++ '\n' :: r))
            (by rw [sepStart]; decide)
          rw [hl, parseRecord.eq_def]
          split
          · rename_i hfr
            rw [hpf] at hfr
            simp at hfr
          · rename_i c r2 hfr
            rw [hpf] at hfr
            simp only at hfr
            obtain ⟨hc, hr2⟩ := List.cons.injEq _ _ _ _ ▸ hfr
            subst hr2
            rw [if_pos hc.symm, hpf, ih r (by simp)]

theorem parseCSV_render (rows : List (List (List Char))) :
    parseCSV (renderCSV rows) = rows.map (fun row => if row = [] then [[]] else row) := by
  induction rows with
  | nil =>
      rw [show renderCSV [] = ([] : List Char) from rfl, parseCSV.eq_def]
      rfl
  | cons row rest ih =>
      by_cases hrow : row = []
      · subst hrow
        rw [show renderCSV ([] :: rest) = '\n' :: renderCSV rest from rfl]
        rw [parseCSV]
        have h2 : parseRecord ('\n' :: renderCSV rest) = ([[]], renderCSV rest) :=
          parseRecord_render [[]] (renderCSV rest) (by simp)
        rw [h2, ih]
        simp
      · have hrc : renderCSV (row :: rest) = renderRow row ++ '\n' :: renderCSV rest := rfl
        have hne2 : renderRow row ++ '\n' :: renderCSV rest ≠ [] := by simp
        cases hl : renderRow row ++ '\n' :: renderCSV rest with
        | nil => exact absurd hl hne2
        | cons c cs =>
            rw [hrc, hl, parseCSV, ← hl, parseRecord_render row _ hrow]
            simp only [List.map_cons, if_neg hrow]
            rw [ih]

/-! ## Claims about the Table Builder -/

/-- C1: for every input that is a list of mappings, `generate_dataframe`
returns a table whose row count equals the input length, whose column
set is the union of all keys across the records in first-seen order
(duplicate-free), and whose row `i` is record `i` aligned to the
columns: present keys keep their values, missing keys become null
cells. -/
theorem generate_dataframe_builds_table (records : List (List (String × Scalar)))
    (hmap : ∀ r ∈ records, (r.map Prod.fst).Nodup) :
    generate_dataframe (PyVal.vlist (records.map PyVal.vdict)) = .ok (mkDF records) ∧
    (mkDF records).rows.length = records.length ∧
    (∀ k, k ∈ (mkDF records).columns ↔ ∃ r ∈ records, k ∈ r.map Prod.fst) ∧
    (mkDF records).columns.Nodup ∧
    (mkDF records).columns = dedupKeepFirst ((records.map (fun r => r.map Prod.fst)).flatten) ∧
    (∀ (i : Nat) r, records[i]? = some r →
      (mkDF records).rows[i]? = some ((mkDF records).columns.map (fun c => lookupKey r c)) ∧
      (∀ k v, (k, v) ∈ r → lookupKey r k = some v) ∧
      (∀ c, c ∉ r.map Prod.fst → lookupKey r c = none)) := by
  refine ⟨?_, ?_, ?_, ?_, ?_, ?_⟩
  · show generate_dataframe _ = _
    rw [generate_dataframe]
    have hall : (records.map PyVal.vdict).all isDict = true := by
      simp [List.all_eq_true, isDict]
    rw [if_pos hall]
    simp [List.map_map, Function.comp_def, asDict]
  · simp [mkDF]
  · intro k
    simpa [mkDF] using mem_firstSeenKeys records k
  · simpa [mkDF] using nodup_firstSeenKeys records
  · simpa [mkDF] using firstSeenKeys_eq_dedup records
  · intro i r hi
    refine ⟨?_, ?_, ?_⟩
    · simp only [mkDF, List.getElem?_map, hi]
      rfl
    · intro k v hkv
      exact lookupKey_mem r k v (hmap r (List.getElem?_mem hi)) hkv
    · intro c hc
      exact lookupKey_not_mem r c hc

/-- Concrete records used to instantiate the claim theorems. -/
def sampleRecords : List (List (String × Scalar)) :=
  [[("price", Scalar.s "100"), ("qty", Scalar.s "1")], [("price", Scalar.s "101")]]

/-- Witness for C1 at a two-record input with a missing key. -/
theorem generate_dataframe_builds_table_witness :
    (∀ r ∈ sampleRecords, (r.map Prod.fst).Nodup) ∧
    (generate_dataframe (PyVal.vlist (sampleRecords.map PyVal.vdict)) = .ok (mkDF sampleRecords) ∧
     (mkDF sampleRecords).rows.length = sampleRecords.length ∧
     (∀ k, k ∈ (mkDF sampleRecords).columns ↔ ∃ r ∈ sampleRecords, k ∈ r.map Prod.fst) ∧
     (mkDF sampleRecords).columns.Nodup ∧
     (mkDF sampleRecords).columns =
       dedupKeepFirst ((sampleRecords.map (fun r => r.map Prod.fst)).flatten) ∧
     (∀ (i : Nat) r, sampleRecords[i]? = some r →
       (mkDF sampleRecords).rows[i]? =
         some ((mkDF sampleRecords).columns.map (fun c => lookupKey r c)) ∧
       (∀ k v, (k, v) ∈ r → lookupKey r k = some v) ∧
       (∀ c, c ∉ r.map Prod.fst → lookupKey r c = none))) :=
  ⟨by decide, generate_dataframe_builds_table sampleRecords (by decide)⟩

/-- C2: `generate_dataframe` fails exactly on inputs that are not a list
of mappings, it fails with an `InputShapeError` and with nothing else,
and on every list of mappings it succeeds. -/
theorem generate_dataframe_validation (v : PyVal) :
    ((∃ m, generate_dataframe v = .error (.inputShapeError m)) ↔ validShape v = false) ∧
    (∀ e, generate_dataframe v = .error e → ∃ m, e = .inputShapeError m) ∧
    (validShape v = true → ∃ df, generate_dataframe v = .ok df) := by
  cases v with
  | vlist xs =>
      by_cases h : xs.all isDict = true
      · refine ⟨?_, ?_, ?_⟩
        · simp [generate_dataframe, validShape, h]
        · intro e he
          simp [generate_dataframe, h] at he
        · intro _
          exact ⟨mkDF (xs.map asDict), by simp [generate_dataframe, h]⟩
      · refine ⟨?_, ?_, ?_⟩
        · simp [generate_dataframe, validShape, h, Bool.eq_false_iff]
        · intro e he
          simp [generate_dataframe, h] at he
          exact ⟨_, he.symm⟩
        · intro hv
          rw [validShape] at hv
          exact absurd hv h
  | vdict kvs =>
      exact ⟨by simp [generate_dataframe, validShape], by simp [generate_dataframe], by simp [validShape]⟩
  | vstr s =>
      exact ⟨by simp [generate_dataframe, validShape], by simp [generate_dataframe], by simp [validShape]⟩
  | vint n =>
      exact ⟨by simp [generate_dataframe, validShape], by simp [generate_dataframe], by simp [validShape]⟩

/-- Witness for C2 at a non-list input (a bare string). -/
theorem generate_dataframe_validation_witness :
    ((∃ m, generate_dataframe (PyVal.vstr "oops") = .error (.inputShapeError m)) ↔
      validShape (PyVal.vstr "oops") = false) ∧
    (∀ e, generate_dataframe (PyVal.vstr "oops") = .error e → ∃ m, e = .inputShapeError m) ∧
    (validShape (PyVal.vstr "oops") = true → ∃ df, generate_dataframe (PyVal.vstr "oops") = .ok df) :=
  generate_dataframe_validation (PyVal.vstr "oops")

/-- C8: the empty input list does not raise and yields the table with
zero rows and zero columns. -/
theorem generate_dataframe_empty_input :
    generate_dataframe (PyVal.vlist []) = .ok { columns := [], rows := [] } ∧
    (mkDF []).columns.length = 0 ∧ (mkDF []).rows.length = 0 :=
  ⟨rfl, rfl, rfl⟩

/-! ## Claims about the Table Persister -/

theorem isAbsolute_append (p q : String) (h : isAbsolute p = true) :
    isAbsolute (p ++ q) = true := by
  rw [isAbsolute] at h ⊢
  rw [String.data_append]
  cases hd : p.data with
  | nil => rw [hd] at h; simp at h
  | cons c cs => rw [hd] at h; simpa using h

theorem isAbsolute_joinPath (p q : String) (h : isAbsolute p = true) :
    isAbsolute (joinPath p q) = true := by
  rw [joinPath]
  split
  · exact isAbsolute_append p q h
  · rw [String.append_assoc]
    exact isAbsolute_append p _ h

theorem fileLookup_writeFile (fs : FS) (p content : String) :
    fileLookup (writeFile fs p content) p = some content := by
  simp [fileLookup, writeFile, List.find?]

/-- C3 counterexample: on an existing but relative destination
directory the Persister succeeds and returns a relative path —
`os.path.join` at src/extraction.py:67 never absolutizes — so "returns
the absolute file path" fails for that directory. -/
theorem dataframe_to_csv_relative_path :
    (dataframe_to_csv (.df { columns := ["price"], rows := [[some (Scalar.s "100")]] })
       "data" "2026-10-12" { dirs := ["data"], files := [], writeFail := none }).1 =
      .ok "data/api_trades_2026-10-12.csv" ∧
    "data/api_trades_2026-10-12.csv" =
      joinPath "data" (csvFilename "2026-10-12") ∧
    isAbsolute "data/api_trades_2026-10-12.csv" = false := by
  refine ⟨rfl, rfl, rfl⟩

/-- C3 (amended): on a valid table and an existing directory,
`dataframe_to_csv` returns the path of the written file — the directory
joined with `api_trades_<date>.csv` for the run's calendar date,
absolute whenever the directory path is absolute — with the file at
that path holding the rendered CSV; a second call on the same calendar
date returns the identical path and fully overwrites the content. -/
theorem dataframe_to_csv_success (d d2 : DataFrame) (p t : String) (fs : FS)
    (hdir : p ∈ fs.dirs) (hw : fs.writeFail = none) :
    (dataframe_to_csv (.df d) p t fs).1 = .ok (joinPath p (csvFilename t)) ∧
    fileLookup (dataframe_to_csv (.df d) p t fs).2.1 (joinPath p (csvFilename t)) =
      some (to_csv d) ∧
    (dataframe_to_csv (.df d2) p t (dataframe_to_csv (.df d) p t fs).2.1).1 =
      .ok (joinPath p (csvFilename t)) ∧
    fileLookup (dataframe_to_csv (.df d2) p t (dataframe_to_csv (.df d) p t fs).2.1).2.1
      (joinPath p (csvFilename t)) = some (to_csv d2) ∧
    (isAbsolute p = true → isAbsolute (joinPath p (csvFilename t)) = true) := by
  have h1 : dataframe_to_csv (.df d) p t fs =
      (.ok (joinPath p (csvFilename t)), writeFile fs (joinPath p (csvFilename t)) (to_csv d),
       ["DataFrame successfully saved to " ++ joinPath p (csvFilename t)]) := by
    rw [dataframe_to_csv]
    rw [if_pos hdir, hw]
  have hdirs1 : (writeFile fs (joinPath p (csvFilename t)) (to_csv d)).dirs = fs.dirs := rfl
  have hwf1 : (writeFile fs (joinPath p (csvFilename t)) (to_csv d)).writeFail = fs.writeFail := rfl
  have h2 : dataframe_to_csv (.df d2) p t (writeFile fs (joinPath p (csvFilename t)) (to_csv d)) =
      (.ok (joinPath p (csvFilename t)),
       writeFile (writeFile fs (joinPath p (csvFilename t)) (to_csv d))
         (joinPath p (csvFilename t)) (to_csv d2),
       ["DataFrame successfully saved to " ++ joinPath p (csvFilename t)]) := by
    rw [dataframe_to_csv]
    rw [hdirs1, if_pos hdir, hwf1, hw]
  refine ⟨?_, ?_, ?_, ?_, fun h => isAbsolute_joinPath p _ h⟩
  · rw [h1]
  · rw [h1]
    exact fileLookup_writeFile fs _ _
  · rw [h1]
    simp only
    rw [h2]
  · rw [h1]
    simp only
    rw [h2]
    simp only
    exact fileLookup_writeFile _ _ _

/-- Filesystem used to instantiate the Persister claim theorems. -/
def sampleFS : FS :=
  { dirs := ["/data/github/mercadobitcoin_api"], files := [], writeFail := none }

/-- Two small tables used to instantiate the Persister claim theorems. -/
def sampleDF : DataFrame :=
  { columns := ["price", "qty"], rows := [[some (Scalar.s "100"), some (Scalar.s "1")]] }

/-- Witness for C3: two same-date calls on a concrete directory. -/
theorem dataframe_to_csv_success_witness :
    "/data/github/mercadobitcoin_api" ∈ sampleFS.dirs ∧ sampleFS.writeFail = none ∧
    ((dataframe_to_csv (.df sampleDF) "/data/github/mercadobitcoin_api" "2026-10-12" sampleFS).1 =
      .ok (joinPath "/data/github/mercadobitcoin_api" (csvFilename "2026-10-12")) ∧
     fileLookup (dataframe_to_csv (.df sampleDF) "/data/github/mercadobitcoin_api" "2026-10-12"
         sampleFS).2.1
       (joinPath "/data/github/mercadobitcoin_api" (csvFilename "2026-10-12")) =
       some (to_csv sampleDF) ∧
     (dataframe_to_csv (.df (mkDF [])) "/data/github/mercadobitcoin_api" "2026-10-12"
       (dataframe_to_csv (.df sampleDF) "/data/github/mercadobitcoin_api" "2026-10-12"
         sampleFS).2.1).1 =
       .ok (joinPath "/data/github/mercadobitcoin_api" (csvFilename "2026-10-12")) ∧
     fileLookup (dataframe_to_csv (.df (mkDF [])) "/data/github/mercadobitcoin_api" "2026-10-12"
       (dataframe_to_csv (.df sampleDF) "/data/github/mercadobitcoin_api" "2026-10-12"
         sampleFS).2.1).2.1
       (joinPath "/data/github/mercadobitcoin_api" (csvFilename "2026-10-12")) =
       some (to_csv (mkDF [])) ∧
     (isAbsolute "/data/github/mercadobitcoin_api" = true →
       isAbsolute (joinPath "/data/github/mercadobitcoin_api" (csvFilename "2026-10-12")) = true)) :=
  ⟨by decide, rfl,
   dataframe_to_csv_success sampleDF (mkDF []) "/data/github/mercadobitcoin_api" "2026-10-12"
     sampleFS (by decide) rfl⟩

/-- C7: `dataframe_to_csv` fails with a `DestinationError` whenever the
destination path is not an existing directory, and with a
`DestinationError` wrapping the underlying I/O error with the file-path
context whenever the write itself fails. -/
theorem dataframe_to_csv_errors (d : DataFrame) (p t : String) (fs : FS) :
    (p ∉ fs.dirs →
      (dataframe_to_csv (.df d) p t fs).1 =
        .error (.destinationError ("The path '" ++ p ++ "' is not a valid directory."))) ∧
    (∀ e, p ∈ fs.dirs → fs.writeFail = some e →
      (dataframe_to_csv (.df d) p t fs).1 =
        .error (.destinationError ("Error while saving the data on '" ++
          joinPath p (csvFilename t) ++ "': " ++ e))) := by
  constructor
  · intro hnd
    rw [dataframe_to_csv]
    rw [if_neg hnd]
  · intro e hdir hw
    rw [dataframe_to_csv]
    rw [if_pos hdir, hw]

/-- Witness for C7: a missing directory and an injected write failure. -/
theorem dataframe_to_csv_errors_witness :
    ("/nope" ∉ sampleFS.dirs ∧
     (dataframe_to_csv (.df sampleDF) "/nope" "2026-10-12" sampleFS).1 =
       .error (.destinationError ("The path '" ++ "/nope" ++ "' is not a valid directory."))) ∧
    ({ sampleFS with writeFail := some "disk full" }.writeFail = some "disk full" ∧
     (dataframe_to_csv (.df sampleDF) "/data/github/mercadobitcoin_api" "2026-10-12"
        { sampleFS with writeFail := some "disk full" }).1 =
       .error (.destinationError ("Error while saving the data on '" ++
         joinPath "/data/github/mercadobitcoin_api" (csvFilename "2026-10-12") ++
         "': " ++ "disk full"))) :=
  ⟨⟨by decide,
    (dataframe_to_csv_errors sampleDF "/nope" "2026-10-12" sampleFS).1 (by decide)⟩,
   ⟨rfl,
    (dataframe_to_csv_errors sampleDF "/data/github/mercadobitcoin_api" "2026-10-12"
      { sampleFS with writeFail := some "disk full" }).2 "disk full" (by decide) rfl⟩⟩

/-- C10: when the Persister's input validation fails — the first
argument is not a DataFrame, or the destination is not an existing
directory — it raises without writing anything and without printing:
the filesystem is returned unchanged and the output is empty. -/
theorem dataframe_to_csv_no_write_on_invalid (arg : DfArg) (p t : String) (fs : FS)
    (h : arg = DfArg.notDf ∨ p ∉ fs.dirs) :
    (∃ e, (dataframe_to_csv arg p t fs).1 = .error e) ∧
    (dataframe_to_csv arg p t fs).2.1 = fs ∧
    (dataframe_to_csv arg p t fs).2.2 = [] := by
  cases arg with
  | notDf =>
      exact ⟨⟨_, rfl⟩, rfl, rfl⟩
  | df d =>
      have hnd : p ∉ fs.dirs := by
        rcases h with h | h
        · cases h
        · exact h
      rw [dataframe_to_csv]
      rw [if_neg hnd]
      exact ⟨⟨_, rfl⟩, rfl, rfl⟩

/-- Witness for C10 at a non-DataFrame argument. -/
theorem dataframe_to_csv_no_write_on_invalid_witness :
    (DfArg.notDf = DfArg.notDf ∨ "/data/github/mercadobitcoin_api" ∉ sampleFS.dirs) ∧
    ((∃ e, (dataframe_to_csv DfArg.notDf "/data/github/mercadobitcoin_api" "2026-10-12"
        sampleFS).1 = .error e) ∧
     (dataframe_to_csv DfArg.notDf "/data/github/mercadobitcoin_api" "2026-10-12"
        sampleFS).2.1 = sampleFS ∧
     (dataframe_to_csv DfArg.notDf "/data/github/mercadobitcoin_api" "2026-10-12"
        sampleFS).2.2 = []) :=
  ⟨Or.inl rfl,
   dataframe_to_csv_no_write_on_invalid DfArg.notDf "/data/github/mercadobitcoin_api"
     "2026-10-12" sampleFS (Or.inl rfl)⟩

/-! ## Claims about the Remote Uploader -/

/-- C4 counterexample: the code derives the object key by splitting the
local path on a hard-coded backslash, not by the platform path-basename.
On the separator-free POSIX path `data/api_trades_2026-10-12.csv` the
uploaded key keeps the whole path, while the final path component is
just the filename — so the key is not `<folder>/<basename(file_path)>`. -/
theorem upload_key_not_basename :
    (upload_csv_to_s3 "data/api_trades_2026-10-12.csv" "mercadobitcoin-api" "trades"
       none none).1 =
      .ok ("mercadobitcoin-api", "trades/data/api_trades_2026-10-12.csv") ∧
    basename "data/api_trades_2026-10-12.csv" = "api_trades_2026-10-12.csv" ∧
    "trades/data/api_trades_2026-10-12.csv" ≠
      "trades" ++ "/" ++ basename "data/api_trades_2026-10-12.csv" := by
  refine ⟨rfl, by decide, by decide⟩

/-- C4 (amended): `upload_csv_to_s3` uploads the file to the object key
`<folder>/<last backslash-separated component of file_path>` — which
coincides with the path basename only for backslash-separated paths. -/
theorem upload_key_spec (file_path bucket_name s3_folder : String) :
    (upload_csv_to_s3 file_path bucket_name s3_folder none none).1 =
      .ok (bucket_name, s3_folder ++ "/" ++ csvFileName file_path) := rfl

/-- C5 counterexample: a failure raised while establishing the client
session (`boto3.client` is outside the `try` block) escapes unwrapped —
the result is the raw exception, not an `UploadError`. -/
theorem upload_client_failure_unwrapped :
    (upload_csv_to_s3 "C:\\data\\f.csv" "mercadobitcoin-api" "trades"
       (some "InvalidRegionError") none).1 = .error (.raw "InvalidRegionError") ∧
    isUploadError (upload_csv_to_s3 "C:\\data\\f.csv" "mercadobitcoin-api" "trades"
       (some "InvalidRegionError") none).1 = false :=
  ⟨rfl, rfl⟩

/-- C5 (amended): every failure raised by the upload call itself is
wrapped in an `UploadError` carrying the underlying cause, while a
failure raised while establishing the client session propagates
unwrapped. -/
theorem upload_error_wrapping (file_path bucket_name s3_folder e : String)
    (ue : Option String) :
    (upload_csv_to_s3 file_path bucket_name s3_folder none (some e)).1 =
      .error (.uploadError ("An error occurred while uploading the file: " ++ e)) ∧
    (upload_csv_to_s3 file_path bucket_name s3_folder (some e) ue).1 =
      .error (.raw e) :=
  ⟨rfl, rfl⟩

/-! ## Claims about the Trade Fetcher -/

/-- C6 counterexample: on a 200 response whose body fails JSON
deserialization, the fetcher fails with a `DataSourceError` (the decode
error is a `RequestException` and is caught and wrapped), although the
GET neither returned a non-success status nor hit a network failure —
so "exactly when non-success status or network failure" is false. -/
theorem fetch_decode_failure :
    get_api_trades (fun _ => .resp 200 (.error "Expecting value: line 1 column 1 (char 0)"))
      "https://api.mercadobitcoin.net/api/v4" "BTC-BRL" =
      .error (.dataSourceError
        ("Error during API request: " ++ "Expecting value: line 1 column 1 (char 0)")) ∧
    claimedFetchFailure (.resp 200 (.error "Expecting value: line 1 column 1 (char 0)")) =
      false := by
  constructor
  · rfl
  · rfl

/-- C6 (amended): the single GET goes to `<base_url>/<symbol>/trades`;
the fetcher fails with a `DataSourceError` exactly when that GET hits a
network failure, returns a non-success (400-599) status, or returns a
body that fails JSON deserialization; on a success status with a decoded
body it returns the decoded JSON value unchanged. -/
theorem get_api_trades_spec (http : String → HttpResult) (api_url symbol : String) :
    ((∃ m, get_api_trades http api_url symbol = .error (.dataSourceError m)) ↔
      actualFetchFailure (http (tradesUrl api_url symbol)) = true) ∧
    (∀ st j, http (tradesUrl api_url symbol) = .resp st (.ok j) → st < 400 →
      get_api_trades http api_url symbol = .ok j) ∧
    (∀ e, http (tradesUrl api_url symbol) = .netErr e →
      get_api_trades http api_url symbol =
        .error (.dataSourceError ("Error during API request: " ++ e))) := by
  refine ⟨?_, ?_, ?_⟩
  · rw [get_api_trades, actualFetchFailure.eq_def]
    cases h : http (tradesUrl api_url symbol) with
    | netErr e => simp
    | resp st body =>
        cases body <;> by_cases hst : 400 ≤ st ∧ st < 600 <;> simp [hst, Except.toOption]
  · intro st j hh hlt
    rw [get_api_trades, hh]
    simp [show ¬ (400 ≤ st ∧ st < 600) by omega]
  · intro e hh
    rw [get_api_trades, hh]

/-! ## The round-trip claim -/

theorem mkDF_row_length (records : List (List (String × Scalar))) :
    ∀ row ∈ (mkDF records).rows, row.length = (mkDF records).columns.length := by
  intro row hrow
  simp only [mkDF] at hrow ⊢
  obtain ⟨r, _, hrw⟩ := List.mem_map.mp hrow
  rw [← hrw, List.length_map]

theorem read_back_wf (df : DataFrame)
    (hwf : ∀ row ∈ df.rows, row.length = df.columns.length) :
    ∃ hdr rows2, read_csv (to_csv df) = some (hdr, rows2) ∧
      rows2.length = df.rows.length ∧
      ∀ (i j : Nat), j < df.columns.length →
        cellAt rows2 i j = (cellAt df.rows i j).map cellStr := by
  have hdata : (to_csv df).data =
      renderCSV ((df.columns.map String.data) ::
        df.rows.map (fun r => r.map (fun cell => (cellStr cell).data))) := rfl
  have hparse2 : parseCSV (to_csv df).data =
      (if (df.columns.map String.data) = [] then [[]] else df.columns.map String.data) ::
      (df.rows.map (fun r => r.map (fun cell => (cellStr cell).data))).map
        (fun row => if row = [] then [[]] else row) := by
    rw [hdata, parseCSV_render, List.map_cons]
  rw [read_csv, hparse2]
  refine ⟨_, _, rfl, ?_, ?_⟩
  · simp
  · intro i j hj
    rw [cellAt, cellAt]
    cases hrow : df.rows[i]? with
    | none =>
        simp [List.getElem?_map, hrow]
    | some row =>
        have hlen : row.length = df.columns.length := hwf row (List.getElem?_mem hrow)
        have hrow_ne : row ≠ [] := by
          intro h
          rw [h] at hlen
          simp at hlen
          omega
        have hmap_ne : row.map (fun cell => (cellStr cell).data) ≠ [] := by
          simpa using hrow_ne
        have hcollapse : (row.map (fun cell => (cellStr cell).data)).map String.mk =
            row.map cellStr := by
          rw [List.map_map]
          rfl
        simp only [List.getElem?_map, hrow, Option.map_some']
        rw [if_neg hmap_ne, hcollapse]
        simp [List.getElem?_map]

/-- C9: for every table built by the Table Builder from a valid list of
mappings, writing it with the Persister's CSV renderer and reading the
CSV back yields a table with the same row count and, position by
position under the table's columns, the same cell values modulo
coercion of values to strings (null cells read back as the empty
string). -/
theorem to_csv_read_csv_round_trip (v : PyVal) (df : DataFrame)
    (h : generate_dataframe v = .ok df) :
    ∃ hdr rows2, read_csv (to_csv df) = some (hdr, rows2) ∧
      rows2.length = df.rows.length ∧
      ∀ (i j : Nat), j < df.columns.length →
        cellAt rows2 i j = (cellAt df.rows i j).map cellStr := by
  cases v with
  | vlist xs =>
      rw [generate_dataframe] at h
      by_cases hall : xs.all isDict = true
      · rw [if_pos hall] at h
        have hdf : df = mkDF (xs.map asDict) := (Except.ok.inj h).symm
        subst hdf
        exact read_back_wf _ (mkDF_row_length _)
      · rw [if_neg hall] at h
        cases h
  | vdict kvs => cases h
  | vstr s => cases h
  | vint n => cases h

/-- Witness for C9 at a one-record table. -/
theorem to_csv_read_csv_round_trip_witness :
    generate_dataframe
        (PyVal.vlist [PyVal.vdict [("price", Scalar.s "100"), ("qty", Scalar.s "1")]]) =
      .ok (mkDF [[("price", Scalar.s "100"), ("qty", Scalar.s "1")]]) ∧
    (∃ hdr rows2,
      read_csv (to_csv (mkDF [[("price", Scalar.s "100"), ("qty", Scalar.s "1")]])) =
        some (hdr, rows2) ∧
      rows2.length = (mkDF [[("price", Scalar.s "100"), ("qty", Scalar.s "1")]]).rows.length ∧
      ∀ (i j : Nat), j < (mkDF [[("price", Scalar.s "100"), ("qty", Scalar.s "1")]]).columns.length →
        cellAt rows2 i j =
          (cellAt (mkDF [[("price", Scalar.s "100"), ("qty", Scalar.s "1")]]).rows i j).map
            cellStr) :=
  ⟨rfl, to_csv_read_csv_round_trip
    (PyVal.vlist [PyVal.vdict [("price", Scalar.s "100"), ("qty", Scalar.s "1")]])
    (mkDF [[("price", Scalar.s "100"), ("qty", Scalar.s "1")]]) rfl⟩

/-- Witness for C6 (amended) at a network-failure oracle. -/
theorem get_api_trades_spec_witness :
    ((∃ m, get_api_trades (fun _ => .netErr "Connection refused")
        "https://api.mercadobitcoin.net/api/v4" "BTC-BRL" = .error (.dataSourceError m)) ↔
      actualFetchFailure ((fun _ => HttpResult.netErr "Connection refused")
        (tradesUrl "https://api.mercadobitcoin.net/api/v4" "BTC-BRL")) = true) ∧
    (∀ st j, (fun _ => HttpResult.netErr "Connection refused")
        (tradesUrl "https://api.mercadobitcoin.net/api/v4" "BTC-BRL") = .resp st (.ok j) →
      st < 400 →
      get_api_trades (fun _ => .netErr "Connection refused")
        "https://api.mercadobitcoin.net/api/v4" "BTC-BRL" = .ok j) ∧
    (∀ e, (fun _ => HttpResult.netErr "Connection refused")
        (tradesUrl "https://api.mercadobitcoin.net/api/v4" "BTC-BRL") = .netErr e →
      get_api_trades (fun _ => .netErr "Connection refused")
        "https://api.mercadobitcoin.net/api/v4" "BTC-BRL" =
        .error (.dataSourceError ("Error during API request: " ++ e))) :=
  get_api_trades_spec (fun _ => .netErr "Connection refused")
    "https://api.mercadobitcoin.net/api/v4" "BTC-BRL"

end Extraction
